import Mathlib

/-!
Verification of the digital-skeptic extraction-and-heuristic-analysis
pipeline.  The repository contains two analyzer implementations:
`analyzeArticle` in `src/app/api/analyze/route.ts` (namespace `Analyze`
below) and `generateAnalysis` in the scrape route (namespace `Scrape`
below), plus the scrape route's selector-based body-text extraction.
Strings are modelled as Lean `String` (a list of characters); JavaScript
string primitives (`split`, `includes`, `trim`, `toLowerCase`,
`toUpperCase`, `replace(/\s+/g, " ")`, `substring`) are given explicit
executable models first.
-/

/-- Models one step of JavaScript `String.prototype.split` on a
one-character-class regex with `+` (a maximal run of characters satisfying
`p` is a single separator).  Processes the character list from the left;
the returned flag records whether the first character of the processed
suffix satisfied `p`, so that an adjacent separator character joins the
same run instead of opening a new field. -/
def splitRunsAux (p : Char → Bool) : List Char → List (List Char) × Bool
  | [] => ([[]], false)
  | c :: cs =>
    let r := splitRunsAux p cs
    if p c then
      if r.2 then (r.1, true) else ([] :: r.1, true)
    else
      match r.1 with
      | [] => ([[c]], false)
      | g :: gs => ((c :: g) :: gs, false)

/-- JavaScript `s.split(/X+/)` where `X` is the character class decided by
`p`: fields between maximal separator runs, with empty leading/trailing
fields kept exactly as JavaScript keeps them. -/
def jsSplitRuns (p : Char → Bool) (s : String) : List String :=
  ((splitRunsAux p s.data).1).map String.mk

/-- `prefixMatch pat l` holds when `pat` is a prefix of `l`. -/
def prefixMatch : List Char → List Char → Bool
  | [], _ => true
  | _ :: _, [] => false
  | a :: as, b :: bs => a == b && prefixMatch as bs

/-- `infixMatch pat l` holds when `pat` occurs contiguously inside `l`. -/
def infixMatch (pat : List Char) : List Char → Bool
  | [] => pat.isEmpty
  | b :: bs => prefixMatch pat (b :: bs) || infixMatch pat bs

/-- JavaScript `s.includes(pat)`: `pat` occurs as a contiguous substring. -/
def jsIncludes (s pat : String) : Bool :=
  infixMatch pat.data s.data

/-- JavaScript `s.trim()`: strip leading and trailing whitespace. -/
def jsTrim (s : String) : String :=
  String.mk
    (((s.data.dropWhile Char.isWhitespace).reverse.dropWhile
        Char.isWhitespace).reverse)

/-- JavaScript `s.toLowerCase()` (ASCII case mapping). -/
def jsToLower (s : String) : String :=
  String.mk (s.data.map Char.toLower)

/-- JavaScript `s.toUpperCase()` (ASCII case mapping). -/
def jsToUpper (s : String) : String :=
  String.mk (s.data.map Char.toUpper)

/-- The character class of the sentence-splitting regex `/[.!?]+/`. -/
def sentencePunct (c : Char) : Bool :=
  c == '.' || c == '!' || c == '?'

/-- JavaScript `s.replace(/\s+/g, " ")`: every run of whitespace becomes a
single space. -/
def collapseWs (s : String) : String :=
  String.intercalate " " (jsSplitRuns Char.isWhitespace s)

/-- JavaScript `s.substring(0, n)`: the first `n` characters. -/
def jsSubstringTo (n : Nat) (s : String) : String :=
  String.mk (s.data.take n)

/-- The double-quote character, `'"'` in the sources. -/
def quoteChar : Char := Char.ofNat 34

/-- The single-quote character used by the `hasQuotes` check. -/
def squoteChar : Char := Char.ofNat 39

/-- `languageAnalysis` object of an `AnalysisResult`. -/
structure LanguageAnalysis where
  tone : String
  objectivity : String
  emotionalLanguage : List String
  hedgingLanguage : List String
deriving DecidableEq

/-- `strengthsWeaknesses` object of an `AnalysisResult`. -/
structure StrengthsWeaknesses where
  strengths : List String
  weaknesses : List String
deriving DecidableEq

/-- `overallAssessment` object of an `AnalysisResult`. -/
structure OverallAssessment where
  credibilityScore : Int
  biasIndicators : List String
  strengthsWeaknesses : StrengthsWeaknesses
deriving DecidableEq

/-- The `AnalysisResult` interface of `src/app/api/analyze/route.ts`,
also the shape returned by the scrape route's `generateAnalysis`. -/
structure AnalysisResult where
  coreClaims : List String
  languageAnalysis : LanguageAnalysis
  redFlags : List String
  verificationQuestions : List String
  overallAssessment : OverallAssessment
deriving DecidableEq

namespace Scrape

/-- `emotionalWords` of `generateAnalysis` (scrape route). -/
def emotionalWords : List String :=
  ["amazing", "terrible", "shocking", "incredible", "devastating",
   "outrageous", "fantastic", "horrible"]

/-- `hedgingPhrases` of `generateAnalysis` (scrape route). -/
def hedgingPhrases : List String :=
  ["might", "could", "possibly", "perhaps", "allegedly", "reportedly",
   "seems to", "appears to"]

/-- `const words = content.toLowerCase().split(/\s+/)`. -/
def words (content : String) : List String :=
  jsSplitRuns Char.isWhitespace (jsToLower content)

/-- `const sentences = content.split(/[.!?]+/).filter((s) => s.trim().length > 0)`. -/
def sentences (content : String) : List String :=
  (jsSplitRuns sentencePunct content).filter
    (fun s => 0 < (jsTrim s).length)

/-- `words.filter((word) => emotionalWords.some((emo) => word.includes(emo)))`:
the whitespace-split lowercased body tokens that contain some lexicon
entry as a substring (note: tokens, not lexicon entries). -/
def foundEmotionalWords (content : String) : List String :=
  (words content).filter
    (fun word => emotionalWords.any (fun emo => jsIncludes word emo))

/-- `hedgingPhrases.filter((phrase) => content.toLowerCase().includes(phrase))`. -/
def foundHedging (content : String) : List String :=
  hedgingPhrases.filter (fun phrase => jsIncludes (jsToLower content) phrase)

/-- `sentences.filter((s) => s.trim().length > 20).slice(0, 4).map((s) => s.trim())`. -/
def coreClaims (content : String) : List String :=
  (((sentences content).filter (fun s => 20 < (jsTrim s).length)).take 4).map
    jsTrim

/-- The tone assignment chain of `generateAnalysis`:
`hasEmotionalLanguage = foundEmotionalWords.length > 0`,
`hasHedging = foundHedging.length > 0`, default `"neutral"`. -/
def tone (content : String) : String :=
  if 0 < (foundEmotionalWords content).length ∧
      ¬ 0 < (foundHedging content).length then "emotional"
  else if 0 < (foundHedging content).length ∧
      ¬ 0 < (foundEmotionalWords content).length then "cautious"
  else if 0 < (foundEmotionalWords content).length ∧
      0 < (foundHedging content).length then "mixed"
  else "neutral"

/-- The objectivity assignment chain of `generateAnalysis`, default
`"moderate"`. -/
def objectivity (content : String) : String :=
  if (foundEmotionalWords content).length = 0 ∧
      2 < (foundHedging content).length then "high"
  else if 3 < (foundEmotionalWords content).length then "low"
  else "moderate"

/-- The four `redFlags.push` statements of `generateAnalysis`, in source
order.  The cited-sources check tests the raw `content`, not its
lowercased form. -/
def redFlags (content title : String) : List String :=
  (if 3 < (foundEmotionalWords content).length then
    ["Excessive use of emotional language"] else []) ++
  (if (sentences content).length < 5 then
    ["Very short article with limited information"] else []) ++
  (if !(jsIncludes content "source") && !(jsIncludes content "study") &&
      !(jsIncludes content "research") then
    ["Lack of cited sources or references"] else []) ++
  (if jsIncludes title "!" || jsIncludes title "BREAKING" then
    ["Sensationalized headline"] else [])

/-- `70 - 5*emotional + 3*hedging - 10*redFlags`, clamped by
`Math.max(0, Math.min(100, credibilityScore))`. -/
def credibilityScore (content title : String) : Int :=
  max 0 (min 100
    ((70 : Int) - ((foundEmotionalWords content).length : Int) * 5
      + ((foundHedging content).length : Int) * 3
      - ((redFlags content title).length : Int) * 10))

/-- The fixed `verificationQuestions` list of `generateAnalysis`. -/
def verificationQuestions : List String :=
  ["What are the primary sources cited in this article?",
   "Can the main claims be verified through independent sources?",
   "What is the author" ++ String.mk [squoteChar] ++
     "s expertise and potential bias on this topic?",
   "Are there any conflicting reports or alternative perspectives mentioned?"]

/-- The three `strengths.push` statements of `generateAnalysis`. -/
def strengths (content : String) : List String :=
  (if 0 < (foundHedging content).length then
    ["Uses qualifying language showing appropriate caution"] else []) ++
  (if 500 < content.length then
    ["Provides substantial detail and context"] else []) ++
  (if 10 < (sentences content).length then
    ["Comprehensive coverage of the topic"] else [])

/-- The three `weaknesses.push` statements of `generateAnalysis`. -/
def weaknesses (content title : String) : List String :=
  (if 2 < (foundEmotionalWords content).length then
    ["Contains emotionally charged language"] else []) ++
  (if 0 < (redFlags content title).length then
    ["Multiple red flags identified in content and presentation"] else []) ++
  (if content.length < 300 then
    ["Limited depth and detail in reporting"] else [])

/-- The three `biasIndicators.push` statements of `generateAnalysis`. -/
def biasIndicators (content title : String) : List String :=
  (if 2 < (foundEmotionalWords content).length then
    ["Emotional Language"] else []) ++
  (if jsIncludes title "!" then ["Sensational Headlines"] else []) ++
  (if 2 < (redFlags content title).length then
    ["Multiple Red Flags"] else [])

/-- `generateAnalysis(content, title, url)` of the scrape route.  The
`url` parameter is accepted and unused, exactly as in the source. -/
def generateAnalysis (content title _url : String) : AnalysisResult :=
  { coreClaims := coreClaims content
    languageAnalysis :=
      { tone := tone content
        objectivity := objectivity content
        emotionalLanguage := (foundEmotionalWords content).take 5
        hedgingLanguage := (foundHedging content).take 5 }
    redFlags := redFlags content title
    verificationQuestions := verificationQuestions
    overallAssessment :=
      { credibilityScore := credibilityScore content title
        biasIndicators := biasIndicators content title
        strengthsWeaknesses :=
          { strengths := strengths content
            weaknesses := weaknesses content title } } }

end Scrape

namespace Analyze

/-- `emotionalWords` of `analyzeArticle` (analyze route). -/
def emotionalWords : List String :=
  ["shocking", "devastating", "incredible", "amazing", "terrible",
   "outrageous", "unbelievable", "stunning"]

/-- `hedgingWords` of `analyzeArticle` (analyze route). -/
def hedgingWords : List String :=
  ["allegedly", "reportedly", "sources say", "it appears", "seems to",
   "might", "could be"]

/-- `claimIndicators` of `analyzeArticle`. -/
def claimIndicators : List String :=
  ["is", "are", "will", "has", "have", "shows", "proves", "demonstrates"]

/-- `const sentences = content.split(/[.!?]+/).filter((s) => s.trim().length > 10)`. -/
def sentences (content : String) : List String :=
  (jsSplitRuns sentencePunct content).filter
    (fun s => 10 < (jsTrim s).length)

/-- `emotionalWords.filter((word) => content.toLowerCase().includes(word))`. -/
def foundEmotional (content : String) : List String :=
  emotionalWords.filter (fun word => jsIncludes (jsToLower content) word)

/-- `hedgingWords.filter((phrase) => content.toLowerCase().includes(phrase))`. -/
def foundHedging (content : String) : List String :=
  hedgingWords.filter (fun phrase => jsIncludes (jsToLower content) phrase)

/-- `sentences.filter((s) => claimIndicators.some((i) => s.toLowerCase().includes(i))).slice(0, 5).map((s) => s.trim())`. -/
def potentialClaims (content : String) : List String :=
  (((sentences content).filter
      (fun s => claimIndicators.any
        (fun indicator => jsIncludes (jsToLower s) indicator))).take 5).map
    jsTrim

/-- `content.includes(DQUOTE) || content.includes(SQUOTE)`. -/
def hasQuotes (content : String) : Bool :=
  jsIncludes content (String.mk [quoteChar]) ||
    jsIncludes content (String.mk [squoteChar])

/-- `/\d+/.test(content)`: the body contains a digit. -/
def hasNumbers (content : String) : Bool :=
  content.data.any Char.isDigit

/-- `content.toLowerCase().includes("according to") || content.toLowerCase().includes("source")`. -/
def hasSourceAttribution (content : String) : Bool :=
  jsIncludes (jsToLower content) "according to" ||
    jsIncludes (jsToLower content) "source"

/-- The tone assignment chain of `analyzeArticle`, default `"neutral"`. -/
def tone (content : String) : String :=
  if 2 < (foundEmotional content).length then "emotional"
  else if 1 < (foundHedging content).length then "cautious"
  else if hasNumbers content && hasSourceAttribution content then "analytical"
  else "neutral"

/-- `50` base, `+15` quotes, `+10` numbers, `+20` attribution,
`-20` when emotional hits exceed 3, `-15` when sentences are below 10,
clamped by `Math.max(0, Math.min(100, credibilityScore))`. -/
def credibilityScore (content : String) : Int :=
  max 0 (min 100
    ((50 : Int) + (if hasQuotes content then 15 else 0)
      + (if hasNumbers content then 10 else 0)
      + (if hasSourceAttribution content then 20 else 0)
      - (if 3 < (foundEmotional content).length then 20 else 0)
      - (if (sentences content).length < 10 then 15 else 0)))

/-- The five `redFlags.push` statements of `analyzeArticle`, in source
order. -/
def redFlags (content title : String) : List String :=
  (if 3 < (foundEmotional content).length then
    ["Heavy use of emotional language may indicate bias"] else []) ++
  (if !(hasSourceAttribution content) then
    ["Limited source attribution - claims not well-supported"] else []) ++
  (if (sentences content).length < 10 then
    ["Article appears unusually short for the topic"] else []) ++
  (if jsIncludes title "!" || (jsToUpper title == title) then
    ["Sensationalized headline"] else []) ++
  (if !(hasNumbers content) && 1000 < content.length then
    ["Lacks specific data or statistics"] else [])

/-- The fixed `verificationQuestions` list of `analyzeArticle`. -/
def verificationQuestions : List String :=
  ["What are the primary sources for the main claims in this article?",
   "Are there any conflicting reports or alternative perspectives on this topic?",
   "What evidence supports the key assertions made?",
   "Who benefits from this particular framing of the story?"]

/-- `analyzeArticle(content, title, url)` of the analyze route.  The
`url` parameter is accepted and unused, exactly as in the source. -/
def analyzeArticle (content title _url : String) : AnalysisResult :=
  { coreClaims := (potentialClaims content).take 4
    languageAnalysis :=
      { tone := tone content
        objectivity :=
          if 70 < credibilityScore content then "High"
          else if 40 < credibilityScore content then "Moderate"
          else "Low"
        emotionalLanguage := foundEmotional content
        hedgingLanguage := foundHedging content }
    redFlags := redFlags content title
    verificationQuestions := verificationQuestions
    overallAssessment :=
      { credibilityScore := credibilityScore content
        biasIndicators :=
          if 2 < (foundEmotional content).length then
            ["Emotional language", "Potential sensationalism"] else []
        strengthsWeaknesses :=
          { strengths :=
              (if hasQuotes content then ["Includes direct quotes"] else []) ++
              (if hasNumbers content then ["Contains specific data"] else []) ++
              (if hasSourceAttribution content then ["Cites sources"] else [])
            weaknesses :=
              (if 2 < (foundEmotional content).length then
                ["Uses emotional language"] else []) ++
              (if !(hasSourceAttribution content) then
                ["Limited source attribution"] else []) ++
              (if (sentences content).length < 10 then
                ["Very brief coverage"] else []) } } }

end Analyze

/-- Responses of the analyze route: `{ analysis }` on success or
`{ error }` with an HTTP status. -/
inductive ApiResponse where
  | ok (analysis : AnalysisResult)
  | err (msg : String) (status : Nat)
deriving DecidableEq

namespace Analyze

/-- The `POST` handler of the analyze route after JSON decoding:
`if (!content || !title)` answers a 400 error, otherwise the analysis is
returned.  JavaScript falsiness of a missing or empty string field is
modelled as equality with `""`. -/
def POST (content title url : String) : ApiResponse :=
  if content = "" ∨ title = "" then
    ApiResponse.err "Content and title are required" 400
  else
    ApiResponse.ok (analyzeArticle content title url)

end Analyze

/-- An abstract parsed HTML document, for the scrape route: `select`
gives the `.text()` of each element matched by a selector string, in
document order, and `bodyText` is `$("body").text()`. -/
structure Doc where
  select : String → List String
  bodyText : String

namespace Scrape

/-- `contentSelectors` of the scrape route's `POST`. -/
def contentSelectors : List String :=
  ["article", ".article-content", ".post-content", ".entry-content",
   "main", ".content", "p"]

/-- The `for (const selector of contentSelectors)` loop of the scrape
route: the `content` accumulator starts empty, every selector that
matches at least one element overwrites it with the space-joined trimmed
element text, and the loop breaks as soon as that text exceeds 100
characters. -/
def selectorScan (doc : Doc) : List String → String → String
  | [], content => content
  | sel :: rest, content =>
    if 0 < (doc.select sel).length then
      let c := jsTrim (String.intercalate " " (doc.select sel))
      if 100 < c.length then c else selectorScan doc rest c
    else
      selectorScan doc rest content

/-- Body-text resolution of the scrape route: run the selector loop and,
`if (!content)`, fall back to the whitespace-collapsed trimmed full body
text. -/
def extractContent (doc : Doc) : String :=
  if selectorScan doc contentSelectors "" = "" then
    jsTrim (collapseWs doc.bodyText)
  else
    selectorScan doc contentSelectors ""

/-- The success response body of the scrape route (the fields the claims
are about; metadata resolution for `title`, `author` and `publishDate` is
abstracted into parameters). -/
structure Response where
  title : String
  url : String
  content : String
  aiAnalysis : AnalysisResult
deriving DecidableEq

/-- Assembly of the scrape route's success response: the analyzer runs on
the full extracted `content`, while the response `content` field is
`content.substring(0, 2000)`. -/
def POST (doc : Doc) (title url : String) : Response :=
  { title := title
    url := url
    content := jsSubstringTo 2000 (extractContent doc)
    aiAnalysis := generateAnalysis (extractContent doc) title url }

/-- The text a selector contributes in the loop: the matched element
texts joined by single spaces, trimmed. -/
def selText (doc : Doc) (sel : String) : String :=
  jsTrim (String.intercalate " " (doc.select sel))

end Scrape

/-- A document in which the first selector matches only a short text and
no other selector matches anything: no selector reaches the threshold,
yet the extractor does not fall back to the document body text. -/
def c2Doc : Doc :=
  { select := fun sel => if sel == "article" then ["short text"] else []
    bodyText := "THE  FULL  BODY" }

/-- A document whose only match, on the first selector, exceeds the
100-character threshold. -/
def c2DocLong : Doc :=
  { select := fun sel =>
      if sel == "article" then
        ["This paragraph of placeholder prose keeps going well past the one hundred character threshold used by the extractor."]
      else []
    bodyText := "b" }

/-- A document where no selector matches any element at all. -/
def c2DocEmpty : Doc :=
  { select := fun _ => [], bodyText := "THE  FULL  BODY" }

/-- A document whose only (short) match is on the last selector "p". -/
def c2DocShort : Doc :=
  { select := fun sel => if sel == "p" then ["a short paragraph"] else []
    bodyText := "IGNORED BODY" }

theorem clamp_nonneg (x : Int) : 0 ≤ max 0 (min 100 x) :=
  le_max_left 0 _

theorem clamp_le_hundred (x : Int) : max 0 (min 100 x) ≤ 100 :=
  max_le (by norm_num) (min_le_left _ _)

/-- A string is a member of a conditional singleton list exactly when the
condition holds and it is that string. -/
theorem mem_ite_singleton {c : Prop} [Decidable c] {a b : String} :
    a ∈ (if c then [b] else ([] : List String)) ↔ c ∧ a = b := by
  split <;> simp_all

theorem take_length_le (n : Nat) (l : List String) : (l.take n).length ≤ n := by
  rw [List.length_take]
  exact min_le_left _ _

theorem map_take_length_le (n : Nat) (f : String → String) (l : List String) :
    ((l.take n).map f).length ≤ n := by
  rw [List.length_map, List.length_take]
  exact min_le_left _ _

namespace Scrape

/-- One unfolding step of the selector loop. -/
theorem scan_cons (doc : Doc) (sel : String) (rest : List String)
    (acc : String) :
    selectorScan doc (sel :: rest) acc =
      if 0 < (doc.select sel).length then
        (if 100 < (selText doc sel).length then selText doc sel
         else selectorScan doc rest (selText doc sel))
      else selectorScan doc rest acc :=
  rfl

/-- Selectors matching no element leave the accumulator unchanged. -/
theorem scan_all_empty (doc : Doc) : ∀ (l : List String) (acc : String),
    (∀ s ∈ l, doc.select s = []) → selectorScan doc l acc = acc := by
  intro l
  induction l with
  | nil => intro acc _; rfl
  | cons s rest ih =>
    intro acc h
    have h0 : ¬ 0 < (doc.select s).length := by
      rw [h s (List.mem_cons_self s rest)]
      decide
    rw [scan_cons, if_neg h0]
    exact ih acc (fun x hx => h x (List.mem_cons_of_mem s hx))

/-- If every selector's joined trimmed text is empty, the loop leaves the
empty accumulator empty. -/
theorem scan_all_trim_empty (doc : Doc) : ∀ (l : List String),
    (∀ s ∈ l, selText doc s = "") → selectorScan doc l "" = "" := by
  intro l
  induction l with
  | nil => intro _; rfl
  | cons s rest ih =>
    intro h
    rw [scan_cons]
    by_cases h0 : 0 < (doc.select s).length
    · rw [if_pos h0,
        if_neg (show ¬ 100 < (selText doc s).length by
          rw [h s (List.mem_cons_self s rest)]
          decide),
        h s (List.mem_cons_self s rest)]
      exact ih (fun x hx => h x (List.mem_cons_of_mem s hx))
    · rw [if_neg h0]
      exact ih (fun x hx => h x (List.mem_cons_of_mem s hx))

/-- A prefix of selectors none of which passes the 100-character
threshold never breaks the loop: scanning continues into the remaining
selectors with some accumulator. -/
theorem scan_prefix (doc : Doc) : ∀ (pre l : List String) (acc : String),
    (∀ s ∈ pre, (selText doc s).length ≤ 100) →
    ∃ acc2, selectorScan doc (pre ++ l) acc = selectorScan doc l acc2 := by
  intro pre
  induction pre with
  | nil => intro l acc _; exact ⟨acc, rfl⟩
  | cons s pre ih =>
    intro l acc h
    rw [List.cons_append, scan_cons]
    by_cases h0 : 0 < (doc.select s).length
    · rw [if_pos h0,
        if_neg (show ¬ 100 < (selText doc s).length by
          have := h s (List.mem_cons_self s pre)
          omega)]
      exact ih l (selText doc s) (fun x hx => h x (List.mem_cons_of_mem s hx))
    · rw [if_neg h0]
      exact ih l acc (fun x hx => h x (List.mem_cons_of_mem s hx))

end Scrape

/-- C1: for every input, both analyzers produce an
`overallAssessment.credibilityScore` in the range `[0,100]`: the score is
a base plus signed adjustments, clamped by `max 0 (min 100 _)`. -/
theorem c1_credibilityScore_in_range (content title url : String) :
    0 ≤ (Analyze.analyzeArticle content title
          url).overallAssessment.credibilityScore ∧
    (Analyze.analyzeArticle content title
        url).overallAssessment.credibilityScore ≤ 100 ∧
    0 ≤ (Scrape.generateAnalysis content title
          url).overallAssessment.credibilityScore ∧
    (Scrape.generateAnalysis content title
        url).overallAssessment.credibilityScore ≤ 100 :=
  ⟨clamp_nonneg _, clamp_le_hundred _, clamp_nonneg _, clamp_le_hundred _⟩

/-- C2 counterexample: in `c2Doc` no selector's text ever reaches the
100-character threshold (the only match is the 10-character
"short text"), yet the body text is that short text and not the
whitespace-collapsed full document text the claim requires. -/
theorem c2_counterexample :
    Scrape.contentSelectors.all
      (fun s => (Scrape.selText c2Doc s).length ≤ 100) = true ∧
    Scrape.extractContent c2Doc = "short text" ∧
    jsTrim (collapseWs c2Doc.bodyText) = "THE FULL BODY" ∧
    ("short text" : String) ≠ "THE FULL BODY" := by
  decide

/-- C2 amended: the loop accepts and stops at the first selector whose
joined trimmed text exceeds 100 characters; when no selector reaches the
threshold the body text is the joined trimmed text of the last selector
that matched at least one element, and the whitespace-collapsed full
document text is used only when the loop ends with an empty string (for
instance when no selector matched, or every matched text trims to
empty). -/
theorem c2_amended_body_resolution (doc : Doc) :
    (∀ pre sel rest, Scrape.contentSelectors = pre ++ sel :: rest →
      (∀ s ∈ pre, (Scrape.selText doc s).length ≤ 100) →
      doc.select sel ≠ [] →
      100 < (Scrape.selText doc sel).length →
      Scrape.extractContent doc = Scrape.selText doc sel) ∧
    ((∀ s ∈ Scrape.contentSelectors, Scrape.selText doc s = "") →
      Scrape.extractContent doc = jsTrim (collapseWs doc.bodyText)) ∧
    (∀ pre sel rest, Scrape.contentSelectors = pre ++ sel :: rest →
      (∀ s ∈ Scrape.contentSelectors, (Scrape.selText doc s).length ≤ 100) →
      doc.select sel ≠ [] →
      Scrape.selText doc sel ≠ "" →
      (∀ s ∈ rest, doc.select s = []) →
      Scrape.extractContent doc = Scrape.selText doc sel) := by
  refine ⟨?_, ?_, ?_⟩
  · intro pre sel rest hsplit hpre hselne hlen
    have hscan :
        Scrape.selectorScan doc Scrape.contentSelectors ""
          = Scrape.selText doc sel := by
      rw [hsplit]
      obtain ⟨acc2, hacc⟩ := Scrape.scan_prefix doc pre (sel :: rest) "" hpre
      rw [hacc, Scrape.scan_cons,
        if_pos (List.length_pos.mpr hselne), if_pos hlen]
    have hne2 : Scrape.selText doc sel ≠ "" := by
      intro h
      rw [h] at hlen
      exact absurd hlen (by decide)
    unfold Scrape.extractContent
    rw [hscan, if_neg hne2]
  · intro hall
    have hscan : Scrape.selectorScan doc Scrape.contentSelectors "" = "" :=
      Scrape.scan_all_trim_empty doc Scrape.contentSelectors hall
    unfold Scrape.extractContent
    rw [hscan, if_pos rfl]
  · intro pre sel rest hsplit hall hselne htne hrest
    have hpre : ∀ s ∈ pre, (Scrape.selText doc s).length ≤ 100 :=
      fun s hs => hall s (by rw [hsplit]; exact List.mem_append_left _ hs)
    have hsel_le : (Scrape.selText doc sel).length ≤ 100 :=
      hall sel (by
        rw [hsplit]
        exact List.mem_append_right pre (List.mem_cons_self sel rest))
    have hscan :
        Scrape.selectorScan doc Scrape.contentSelectors ""
          = Scrape.selText doc sel := by
      rw [hsplit]
      obtain ⟨acc2, hacc⟩ := Scrape.scan_prefix doc pre (sel :: rest) "" hpre
      rw [hacc, Scrape.scan_cons, if_pos (List.length_pos.mpr hselne),
        if_neg (show ¬ 100 < (Scrape.selText doc sel).length by omega),
        Scrape.scan_all_empty doc rest (Scrape.selText doc sel) hrest]
    unfold Scrape.extractContent
    rw [hscan, if_neg htne]

theorem c2_witness :
    Scrape.extractContent c2DocLong = Scrape.selText c2DocLong "article" ∧
    Scrape.extractContent c2DocEmpty
      = jsTrim (collapseWs c2DocEmpty.bodyText) ∧
    Scrape.extractContent c2DocShort = Scrape.selText c2DocShort "p" :=
  ⟨(c2_amended_body_resolution c2DocLong).1 []
      "article"
      [".article-content", ".post-content", ".entry-content", "main",
       ".content", "p"]
      rfl (by decide) (by decide) (by decide),
    (c2_amended_body_resolution c2DocEmpty).2.1 (by decide),
    (c2_amended_body_resolution c2DocShort).2.2
      ["article", ".article-content", ".post-content", ".entry-content",
       "main", ".content"]
      "p" [] rfl (by decide) (by decide) (by decide) (by decide)⟩

/-- C3 counterexample: on an empty body text the scrape-path analyzer
does not fail; it returns a complete `AnalysisResult` (score 50, two red
flags, neutral tone, the four fixed questions). -/
theorem c3_counterexample :
    (Scrape.generateAnalysis "" "t"
        "u").overallAssessment.credibilityScore = 50 ∧
    (Scrape.generateAnalysis "" "t" "u").redFlags =
      ["Very short article with limited information",
       "Lack of cited sources or references"] ∧
    (Scrape.generateAnalysis "" "t" "u").languageAnalysis.tone = "neutral" ∧
    (Scrape.generateAnalysis "" "t" "u").verificationQuestions.length = 4 := by
  decide

/-- C3 amended: the analyzers themselves never fail — every body text,
empty included, yields a complete `AnalysisResult` (always carrying the
four fixed verification questions); separately, the analyze endpoint
rejects an empty content or title with a 400 validation error before the
analyzer runs. -/
theorem c3_amended_analyzer_never_fails (content title url : String) :
    (content ≠ "" → title ≠ "" →
      Analyze.POST content title url
        = ApiResponse.ok (Analyze.analyzeArticle content title url)) ∧
    (content = "" →
      Analyze.POST content title url
        = ApiResponse.err "Content and title are required" 400) ∧
    (Scrape.generateAnalysis content title
        url).verificationQuestions.length = 4 ∧
    (Analyze.analyzeArticle content title
        url).verificationQuestions.length = 4 := by
  refine ⟨?_, ?_, rfl, rfl⟩
  · intro hc ht
    simp [Analyze.POST, hc, ht]
  · intro hc
    subst hc
    simp [Analyze.POST]

theorem c3_witness :
    ("a" : String) ≠ "" ∧ ("b" : String) ≠ "" ∧
    Analyze.POST "a" "b" "u"
      = ApiResponse.ok (Analyze.analyzeArticle "a" "b" "u") ∧
    Analyze.POST "" "b" "u"
      = ApiResponse.err "Content and title are required" 400 :=
  ⟨by decide, by decide,
    (c3_amended_analyzer_never_fails "a" "b" "u").1 (by decide) (by decide),
    (c3_amended_analyzer_never_fails "" "b" "u").2.1 rfl⟩

/-- C4 counterexample: in the analyze-endpoint analyzer a body with all
8 emotional-lexicon entries yields 8 entries in `emotionalLanguage`, not
5 — there is no cap there. -/
theorem c4_counterexample :
    (Analyze.analyzeArticle
        "shocking devastating incredible amazing terrible outrageous unbelievable stunning"
        "t" "u").languageAnalysis.emotionalLanguage
      = Analyze.emotionalWords ∧
    (Analyze.analyzeArticle
        "shocking devastating incredible amazing terrible outrageous unbelievable stunning"
        "t" "u").languageAnalysis.emotionalLanguage.length = 8 := by
  decide

/-- C4 amended: the analyze-endpoint analyzer's `emotionalLanguage` and
`hedgingLanguage` are duplicate-free sublists of the respective lexicons
in lexicon order but are not capped; the scrape-path analyzer caps both
at 5, its `hedgingLanguage` being an ordered sublist of its lexicon while
its `emotionalLanguage` consists of matching body tokens. -/
theorem c4_amended_lexicon_caps (content title url : String) :
    ((Analyze.analyzeArticle content title
        url).languageAnalysis.emotionalLanguage).Sublist
      Analyze.emotionalWords ∧
    ((Analyze.analyzeArticle content title
        url).languageAnalysis.hedgingLanguage).Sublist
      Analyze.hedgingWords ∧
    (Scrape.generateAnalysis content title
        url).languageAnalysis.emotionalLanguage.length ≤ 5 ∧
    (Scrape.generateAnalysis content title
        url).languageAnalysis.hedgingLanguage.length ≤ 5 ∧
    ((Scrape.generateAnalysis content title
        url).languageAnalysis.hedgingLanguage).Sublist
      Scrape.hedgingPhrases := by
  refine ⟨List.filter_sublist _, List.filter_sublist _, ?_, ?_, ?_⟩
  · exact take_length_le 5 _
  · exact take_length_le 5 _
  · exact (List.take_sublist _ _).trans (List.filter_sublist _)

/-- C5 counterexample: in the analyze-endpoint analyzer a body with 3
emotional hits and 1 hedging hit gets tone "emotional", although the
claim requires "mixed" whenever both kinds of hits are present. -/
theorem c5_counterexample :
    (Analyze.analyzeArticle "shocking devastating incredible might" "t"
        "u").languageAnalysis.emotionalLanguage.length = 3 ∧
    (Analyze.analyzeArticle "shocking devastating incredible might" "t"
        "u").languageAnalysis.hedgingLanguage = ["might"] ∧
    (Analyze.analyzeArticle "shocking devastating incredible might" "t"
        "u").languageAnalysis.tone = "emotional" := by
  decide

/-- C5 amended: the claim's three tone implications hold of the
scrape-path analyzer (whose first rule in fact fires already at one
emotional hit); the analyze-endpoint analyzer instead returns
"emotional" for more than 2 emotional hits regardless of hedging,
"cautious" only when hedging hits exceed 1, and never "mixed". -/
theorem c5_amended_tone_rules (content title url : String) :
    (2 < (Scrape.foundEmotionalWords content).length →
      (Scrape.foundHedging content).length = 0 →
      (Scrape.generateAnalysis content title url).languageAnalysis.tone
        = "emotional") ∧
    (0 < (Scrape.foundHedging content).length →
      (Scrape.foundEmotionalWords content).length = 0 →
      (Scrape.generateAnalysis content title url).languageAnalysis.tone
        = "cautious") ∧
    (0 < (Scrape.foundEmotionalWords content).length →
      0 < (Scrape.foundHedging content).length →
      (Scrape.generateAnalysis content title url).languageAnalysis.tone
        = "mixed") ∧
    (2 < (Analyze.foundEmotional content).length →
      (Analyze.analyzeArticle content title url).languageAnalysis.tone
        = "emotional") ∧
    ((Analyze.foundEmotional content).length ≤ 2 →
      1 < (Analyze.foundHedging content).length →
      (Analyze.analyzeArticle content title url).languageAnalysis.tone
        = "cautious") ∧
    (Analyze.analyzeArticle content title url).languageAnalysis.tone
      ≠ "mixed" := by
  refine ⟨?_, ?_, ?_, ?_, ?_, ?_⟩
  · intro h1 h2
    show Scrape.tone content = "emotional"
    unfold Scrape.tone
    rw [if_pos (by omega)]
  · intro h1 h2
    show Scrape.tone content = "cautious"
    unfold Scrape.tone
    rw [if_neg (by omega), if_pos (by omega)]
  · intro h1 h2
    show Scrape.tone content = "mixed"
    unfold Scrape.tone
    rw [if_neg (by omega), if_neg (by omega), if_pos (by omega)]
  · intro h1
    show Analyze.tone content = "emotional"
    unfold Analyze.tone
    rw [if_pos h1]
  · intro h1 h2
    show Analyze.tone content = "cautious"
    unfold Analyze.tone
    rw [if_neg (by omega), if_pos h2]
  · show Analyze.tone content ≠ "mixed"
    unfold Analyze.tone
    split
    · decide
    · split
      · decide
      · split
        · decide
        · decide

theorem c5_witness :
    2 < (Scrape.foundEmotionalWords
          "shocking devastating incredible wow").length ∧
    (Scrape.foundHedging "shocking devastating incredible wow").length = 0 ∧
    (Scrape.generateAnalysis "shocking devastating incredible wow" "t"
        "u").languageAnalysis.tone = "emotional" ∧
    (Scrape.generateAnalysis "it might rain" "t"
        "u").languageAnalysis.tone = "cautious" ∧
    (Scrape.generateAnalysis "shocking and it might rain" "t"
        "u").languageAnalysis.tone = "mixed" ∧
    (Analyze.analyzeArticle "shocking devastating incredible" "t"
        "u").languageAnalysis.tone = "emotional" ∧
    (Analyze.analyzeArticle "might could be" "t"
        "u").languageAnalysis.tone = "cautious" :=
  ⟨by decide, by decide,
    (c5_amended_tone_rules "shocking devastating incredible wow" "t" "u").1
      (by decide) (by decide),
    (c5_amended_tone_rules "it might rain" "t" "u").2.1
      (by decide) (by decide),
    (c5_amended_tone_rules "shocking and it might rain" "t" "u").2.2.1
      (by decide) (by decide),
    (c5_amended_tone_rules "shocking devastating incredible" "t"
        "u").2.2.2.1 (by decide),
    (c5_amended_tone_rules "might could be" "t" "u").2.2.2.2.1
      (by decide) (by decide)⟩

/-- C6 counterexample: the scrape-path analyzer puts a sentence with no
assertive-verb indicator into `coreClaims` — its filter is length-based,
not indicator-based. -/
theorem c6_counterexample :
    (Scrape.generateAnalysis "zzzz qqqq wwww rrrr eeee." "t" "u").coreClaims
      = ["zzzz qqqq wwww rrrr eeee"] ∧
    Analyze.claimIndicators.all
      (fun indicator =>
        !(jsIncludes (jsToLower "zzzz qqqq wwww rrrr eeee") indicator))
      = true := by
  decide

/-- C6 amended: the analyze-endpoint analyzer's `coreClaims` is the first
at most 4 segmented sentences containing an assertive-verb indicator,
trimmed; the scrape-path analyzer's `coreClaims` is instead the first at
most 4 sentences whose trimmed length exceeds 20 characters, trimmed,
with no indicator condition; neither ever exceeds 4 elements. -/
theorem c6_amended_coreClaims (content title url : String) :
    (Analyze.analyzeArticle content title url).coreClaims
        = (((Analyze.sentences content).filter
            (fun s => Analyze.claimIndicators.any
              (fun indicator => jsIncludes (jsToLower s) indicator))).take
            4).map jsTrim ∧
    (Analyze.analyzeArticle content title url).coreClaims.length ≤ 4 ∧
    (Scrape.generateAnalysis content title url).coreClaims
        = (((Scrape.sentences content).filter
            (fun s => 20 < (jsTrim s).length)).take 4).map jsTrim ∧
    (Scrape.generateAnalysis content title url).coreClaims.length ≤ 4 := by
  refine ⟨?_, ?_, rfl, ?_⟩
  · show ((((Analyze.sentences content).filter _).take 5).map jsTrim).take 4
        = _
    rw [← List.map_take, List.take_take]
    norm_num
  · exact take_length_le 4 _
  · exact map_take_length_le 4 _ _

/-- C7 counterexample: a title containing the literal token "BREAKING"
(in an otherwise mixed-case title, with no exclamation mark) does not get
the sensationalized-headline flag from the analyze-endpoint analyzer, and
a fully upper-case title (no "!", no "BREAKING") does not get it from the
scrape-path analyzer. -/
theorem c7_counterexample :
    jsIncludes "xBREAKINGx" "BREAKING" = true ∧
    "Sensationalized headline" ∉
      (Analyze.analyzeArticle "some body" "xBREAKINGx" "u").redFlags ∧
    jsToUpper "HELLO WORLD" = "HELLO WORLD" ∧
    "Sensationalized headline" ∉
      (Scrape.generateAnalysis "some body" "HELLO WORLD" "u").redFlags := by
  decide

/-- C7 amended: each analyzer checks only two of the claim's three
headline triggers — the analyze endpoint flags exactly when the title
contains "!" or equals its upper-cased form, the scrape path exactly when
the title contains "!" or the token "BREAKING" — in both cases regardless
of the body. -/
theorem c7_amended_headline_flag (content title url : String) :
    ("Sensationalized headline" ∈
        (Analyze.analyzeArticle content title url).redFlags
      ↔ (jsIncludes title "!" = true ∨ jsToUpper title = title)) ∧
    ("Sensationalized headline" ∈
        (Scrape.generateAnalysis content title url).redFlags
      ↔ (jsIncludes title "!" = true ∨ jsIncludes title "BREAKING" = true)) := by
  constructor
  · show "Sensationalized headline" ∈ Analyze.redFlags content title ↔ _
    unfold Analyze.redFlags
    simp only [List.mem_append, mem_ite_singleton]
    simp [Bool.or_eq_true, beq_iff_eq]
  · show "Sensationalized headline" ∈ Scrape.redFlags content title ↔ _
    unfold Scrape.redFlags
    simp only [List.mem_append, mem_ite_singleton]
    simp [Bool.or_eq_true]

/-- C8: the scrape route's analyzer runs on the full extracted body text,
while the response `content` field is that text truncated to its first
2000 characters; the truncation touches no field of the analysis. -/
theorem c8_truncation_is_display_only (doc : Doc) (title url : String) :
    (Scrape.POST doc title url).aiAnalysis
        = Scrape.generateAnalysis (Scrape.extractContent doc) title url ∧
    (Scrape.POST doc title url).content
        = jsSubstringTo 2000 (Scrape.extractContent doc) ∧
    (Scrape.POST doc title url).content.length ≤ 2000 := by
  refine ⟨rfl, rfl, ?_⟩
  have h : ((Scrape.extractContent doc).data.take 2000).length ≤ 2000 := by
    rw [List.length_take]
    exact min_le_left _ _
  exact h

/-- C9: both analyzers are deterministic functions of
`(bodyText, title, url)`: equal inputs give equal results in every
field. -/
theorem c9_deterministic (ca cb ta tb ua ub : String)
    (hc : ca = cb) (ht : ta = tb) (hu : ua = ub) :
    Analyze.analyzeArticle ca ta ua = Analyze.analyzeArticle cb tb ub ∧
    Scrape.generateAnalysis ca ta ua = Scrape.generateAnalysis cb tb ub := by
  subst hc
  subst ht
  subst hu
  exact ⟨rfl, rfl⟩

theorem c9_deterministic_witness :
    Analyze.analyzeArticle "a" "b" "c" = Analyze.analyzeArticle "a" "b" "c" ∧
    Scrape.generateAnalysis "a" "b" "c" = Scrape.generateAnalysis "a" "b" "c" :=
  c9_deterministic "a" "a" "b" "b" "c" "c" rfl rfl rfl

/-- C10: in the scrape-path analyzer the lack-of-cited-sources red flag
is decided by case-sensitive search on the raw body text: whenever none
of the exact lowercase substrings "source", "study", "research" occurs in
the raw body, the flag is appended, whatever the title and url. -/
theorem c10_lack_of_sources_case_sensitive (content title url : String)
    (h1 : jsIncludes content "source" = false)
    (h2 : jsIncludes content "study" = false)
    (h3 : jsIncludes content "research" = false) :
    "Lack of cited sources or references" ∈
      (Scrape.generateAnalysis content title url).redFlags := by
  show "Lack of cited sources or references" ∈ Scrape.redFlags content title
  unfold Scrape.redFlags
  rw [h1, h2, h3]
  simp

theorem c10_witness :
    jsIncludes "A Source According to a Study and Research" "source" = false ∧
    jsIncludes "A Source According to a Study and Research" "study" = false ∧
    jsIncludes "A Source According to a Study and Research" "research" = false ∧
    "Lack of cited sources or references" ∈
      (Scrape.generateAnalysis "A Source According to a Study and Research"
        "t" "u").redFlags :=
  ⟨by decide, by decide, by decide,
    c10_lack_of_sources_case_sensitive
      "A Source According to a Study and Research" "t" "u"
      (by decide) (by decide) (by decide)⟩
